import Mathlib

/-!
Shallow embedding of the mesh geometry and topology engine of
`src/uxarray/grid.py` (class `Grid`): the per-face area cache and
aggregator (`compute_face_areas`, `face_areas`, `calculate_total_face_area`,
`integrate`) and the antimeridian processor (`compute_antimeridian_faces`,
`split_antimeridian_faces`).

Numeric values (coordinates, areas, fields) are embedded as exact rationals.
Python exceptions are embedded as an explicit error type carried by
`Except`; the mutation of the cache attribute is embedded by threading the
`Grid` state explicitly, so an operation returns both its result (or error)
and the state after the call.
-/

/-- Errors observable from the embedded operations.  `valueError`,
`indexError`, `keyError` and `typeError` are the Python/numpy exceptions the
source can actually raise; `configurationError`, `shapeMismatchError` and
`topologyError` are the error taxonomy named by the specification (§7). -/
inductive PyError where
  | valueError
  | indexError
  | keyError
  | typeError
  | configurationError
  | shapeMismatchError
  | topologyError
deriving DecidableEq, Repr

/-- The in-memory state of a `Grid` instance: node coordinate sequences
(`Mesh2_node_x`, `Mesh2_node_y`, `Mesh2_node_z`), the units string of the
longitude coordinate, the `topology_dimension` attribute of `Mesh2`, the
face-node connectivity table `Mesh2_face_nodes` (sentinel entries are `-1`),
and the per-face area cache attribute `_face_areas` (`none` = Python
`None`). -/
structure Grid where
  node_x : List ℚ
  node_y : List ℚ
  node_z : List ℚ
  node_x_units : String
  topology_dimension : Int
  face_nodes : List (List Int)
  face_areas_cache : Option (List ℚ)
deriving DecidableEq, Repr

/-- Python `"degree" in units` substring test. -/
def containsDegree (units : String) : Bool :=
  (units.splitOn "degree").length != 1

/-- `astype(np.uint32)` on one connectivity entry: reduce modulo 2^32
(the sentinel `-1` becomes `4294967295`). -/
def toUint32 (i : Int) : Int :=
  i % 4294967296

/-- `astype(np.int32)` on one connectivity entry: wrap into
`[-2^31, 2^31)` (the sentinel `-1` stays `-1`). -/
def toInt32 (i : Int) : Int :=
  (i + 2147483648) % 4294967296 - 2147483648

/-- Coordinate of node `i` in a coordinate sequence (used by the area
kernel only with in-range indices). -/
def coord (c : List ℚ) (i : Int) : ℚ :=
  c.getD i.toNat 0

/-- Modelled from the spec: the Topology Accessor (§4.3) of the helpers
module, which is not among the sources.  It yields the ordered valid node
indices of one face row, filtering out the sentinel; after the `uint32`
cast the sentinel is `4294967295`, which is never a valid index in
`[0, N)`, so validity is membership in `[0, N)`. -/
def valid_nodes (n : Nat) (row : List Int) : List Int :=
  row.filter (fun i => decide (0 ≤ i ∧ i < (n : Int)))

/-- Modelled from the spec: the planar triangle area of the Face Area
Kernel (§4.2), half the magnitude of the cross product of two edge
vectors. -/
def triangle_area (x y : List ℚ) (a b c : Int) : ℚ :=
  |(coord x b - coord x a) * (coord y c - coord y a) -
      (coord y b - coord y a) * (coord x c - coord x a)| / 2

/-- Modelled from the spec: fan triangulation from the first vertex
(§4.2 step 1): triangles `(v0, vi, vi+1)`. -/
def fan_triangles : List Int → List (Int × Int × Int)
  | [] => []
  | v0 :: rest => (rest.zip rest.tail).map (fun p => (v0, p.1, p.2))

/-- Modelled from the spec: area of one polygon face by summing the fan
triangles (§4.2 step 4). -/
def fan_area (x y : List ℚ) (nodes : List Int) : ℚ :=
  ((fan_triangles nodes).map
      (fun t => triangle_area x y t.1 t.2.1 t.2.2)).foldl (· + ·) 0

/-- Modelled from the spec: per-face kernel call; a face with fewer than
3 valid nodes is a `ConfigurationError` ("degenerate face", §4.2 failure
modes). -/
def face_area_from_nodes (x y : List ℚ) (nodes : List Int) :
    Except PyError ℚ :=
  if nodes.length < 3 then .error .configurationError
  else .ok (fan_area x y nodes)

/-- Modelled from the spec: the per-face loop of the aggregator over the
connectivity rows, propagating the first kernel error. -/
def all_face_areas (x y : List ℚ) : List (List Int) → Except PyError (List ℚ)
  | [] => .ok []
  | row :: rows =>
    match face_area_from_nodes x y (valid_nodes x.length row) with
    | .error e => .error e
    | .ok a =>
      match all_face_areas x y rows with
      | .error e => .error e
      | .ok as => .ok (a :: as)

/-- Modelled from the spec: `get_all_face_area_from_coords` of the helpers
module, which is not among the sources.  Per §4.1/§6 the supported
quadrature configuration is rule `"triangular"` with order 1..4; any other
(rule, order) pair is a `ConfigurationError`.  The quadrature order only
controls numerical accuracy (§4.1); in this exact-arithmetic model every
supported order yields the exact fan-triangulation area, with the planar
differential-area element standing in for the spherical one (the spherical
element of §4.2 is transcendental and has no exact rational form), so the
`z`, `dim` and `coords_type` arguments do not change the modelled value. -/
def get_all_face_area_from_coords (x y z : List ℚ)
    (face_nodes : List (List Int)) (dim : Int) (quadrature_rule : String)
    (order : Nat) (coords_type : String) : Except PyError (List ℚ) :=
  if quadrature_rule = "triangular" ∧ 1 ≤ order ∧ order ≤ 4 then
    all_face_areas x y face_nodes
  else .error .configurationError

/-- `Grid.compute_face_areas(quadrature_rule, order)` (grid.py:273-323).
If the cache attribute `_face_areas` is not `None` the whole computation
is skipped and the cached array is returned; otherwise the coordinate
family is resolved from the units string, the connectivity is cast to
`uint32`, `z` defaults to zeros unless `topology_dimension > 2`, the
helper is called, and its result is stored in the cache and returned. -/
def compute_face_areas (g : Grid) (quadrature_rule : String) (order : Nat) :
    Except PyError (List ℚ) × Grid :=
  match g.face_areas_cache with
  | some a => (.ok a, g)
  | none =>
    match get_all_face_area_from_coords g.node_x g.node_y
        (if 2 < g.topology_dimension then g.node_z
          else List.replicate g.node_x.length 0)
        (g.face_nodes.map (fun row => row.map toUint32))
        g.topology_dimension quadrature_rule order
        (if !(containsDegree g.node_x_units) then "cartesian"
          else "spherical") with
    | .error e => (.error e, g)
    | .ok a => (.ok a, { g with face_areas_cache := some a })

/-- The `Grid.face_areas` property (grid.py:326-332): if the cache is
`None`, call `compute_face_areas()` with its default arguments
(`"triangular"`, 4); then return the cache attribute (which a successful
call has just populated). -/
def face_areas (g : Grid) : Except PyError (List ℚ) × Grid :=
  match g.face_areas_cache with
  | some a => (.ok a, g)
  | none =>
    match compute_face_areas g "triangular" 4 with
    | (.error e, g') => (.error e, g')
    | (.ok a, g') => (.ok a, g')

/-- `np.sum` over a 1-D array. -/
def np_sum (l : List ℚ) : ℚ :=
  l.foldl (· + ·) 0

/-- `Grid.calculate_total_face_area(quadrature_rule, order)`
(grid.py:252-271): `np.sum` of `compute_face_areas(quadrature_rule,
order)`. -/
def calculate_total_face_area (g : Grid) (quadrature_rule : String)
    (order : Nat) : Except PyError ℚ × Grid :=
  match compute_face_areas g quadrature_rule order with
  | (.error e, g') => (.error e, g')
  | (.ok a, g') => (.ok (np_sum a), g')

/-- `np.dot` on two 1-D arrays: the sum of pairwise products when the
lengths agree, and numpy's `ValueError` ("shapes not aligned") when they
do not. -/
def np_dot (a b : List ℚ) : Except PyError ℚ :=
  if a.length = b.length then
    .ok ((a.zip b).foldl (fun s p => s + p.1 * p.2) 0)
  else .error .valueError

/-- `Grid.integrate(var_ds, quadrature_rule, order)` (grid.py:334-376).
The dataset is embedded as its ordered (name, values) variables.  The
source first obtains the face areas through `compute_face_areas`, prints a
warning when the dataset has more than one variable (embedded as the
`Bool` component of the result), takes the first key (`var_key[0]`, an
`IndexError` on an empty dataset), looks its values up, and returns
`np.dot(face_areas, face_vals)`. -/
def integrate (g : Grid) (var_ds : List (String × List ℚ))
    (quadrature_rule : String) (order : Nat) :
    Except PyError ℚ × Bool × Grid :=
  match compute_face_areas g quadrature_rule order with
  | (.error e, g') => (.error e, false, g')
  | (.ok fa, g') =>
    let warned := decide (1 < var_ds.length)
    match var_ds with
    | [] => (.error .indexError, warned, g')
    | (k, _) :: _ =>
      match var_ds.lookup k with
      | none => (.error .keyError, warned, g')
      | some face_vals => (np_dot fa face_vals, warned, g')

/-- numpy 1-D integer "take" (fancy indexing with one index): a negative
index wraps once from the end; an index out of range after that raises
`IndexError`. -/
def np_take_1d (xs : List ℚ) (i : Int) : Except PyError ℚ :=
  let n : Int := xs.length
  let j : Int := if i < 0 then i + n else i
  if 0 ≤ j ∧ j < n then .ok (xs.getD j.toNat 0) else .error .indexError

/-- numpy gather of one connectivity row through a coordinate sequence. -/
def np_take_row (xs : List ℚ) : List Int → Except PyError (List ℚ)
  | [] => .ok []
  | i :: is =>
    match np_take_1d xs i with
    | .error e => .error e
    | .ok v =>
      match np_take_row xs is with
      | .error e => .error e
      | .ok vs => .ok (v :: vs)

/-- numpy gather of a whole connectivity table through a coordinate
sequence, as in `Mesh2_node_x.values[face_nodes]`. -/
def np_take_2d (xs : List ℚ) : List (List Int) → Except PyError (List (List ℚ))
  | [] => .ok []
  | r :: rs =>
    match np_take_row xs r with
    | .error e => .error e
    | .ok v =>
      match np_take_2d xs rs with
      | .error e => .error e
      | .ok vs => .ok (v :: vs)

/-- `np.pad(row, (0, 1), "wrap")` restricted to one row of the 2-D pad of
grid.py:411 (the extra wrapped row the 2-D pad also creates is dropped by
the `[:-1]` slice there): append the first element at the end. -/
def np_pad_wrap (row : List ℚ) : List ℚ :=
  match row with
  | [] => []
  | a :: _ => row ++ [a]

/-- `np.diff` along the last axis, on one row: `out[i] = l[i+1] - l[i]`. -/
def np_diff (l : List ℚ) : List ℚ :=
  List.zipWith (fun x y => y - x) l l.tail

/-- One row of `np.abs(np.diff(face_lon_pad)) > threshold`
(grid.py:414-417): the per-edge crossing mask of one face. -/
def edge_cross_mask (row : List ℚ) (threshold : ℚ) : List Bool :=
  (np_diff (np_pad_wrap row)).map (fun d => decide (threshold < |d|))

/-- One entry of `np.any(crossed_mask_2d, axis=1)` (grid.py:420): whether
a face's gathered longitude row has any edge crossing the antimeridian. -/
def faceCrossesAntimeridian (row : List ℚ) (threshold : ℚ) : Bool :=
  (edge_cross_mask row threshold).any (fun b => b)

/-- `tuple(np.argwhere(mask).squeeze())` for a 1-D boolean mask, in the
cases where it does not raise: the ascending indices of the `true`
entries. -/
def trueIndices (mask : List Bool) : List Nat :=
  (List.range mask.length).filter (fun i => mask.getD i false)

/-- `crossed_mask_2d[crossed_indices, :]` (grid.py:426): select the rows
at the given indices.  The trailing `.squeeze()` of the source only
reshapes (it drops size-1 axes) and is the identity on the selected row
contents, so it is not modelled separately. -/
def selectRows (m2 : List (List Bool)) (idxs : List Nat) : List (List Bool) :=
  idxs.map (fun i => m2.getD i [])

/-- `Grid.compute_antimeridian_faces(threshold)` (grid.py:378-428).
The connectivity is cast to `int32` and gathered through the longitude
values (so a sentinel `-1` gathers the last node's longitude and no slot
is filtered out), each row is cyclically padded, adjacent differences are
taken, and a face is flagged when any absolute difference strictly exceeds
the threshold.  `tuple(np.argwhere(crossed_mask_1d).squeeze())` raises
`TypeError` when exactly one face is flagged (the `squeeze` then yields a
0-d array, over which `tuple` cannot iterate); otherwise the flagged
indices and the selected mask rows are returned. -/
def compute_antimeridian_faces (g : Grid) (threshold : ℚ) :
    Except PyError (List Nat × List (List Bool)) := do
  let face_nodes := g.face_nodes.map (fun row => row.map toInt32)
  let face_lon ← np_take_2d g.node_x face_nodes
  let crossed_mask_2d := face_lon.map (fun row => edge_cross_mask row threshold)
  let crossed_mask_1d := crossed_mask_2d.map (fun row => row.any (fun b => b))
  let crossed_indices := trueIndices crossed_mask_1d
  if crossed_indices.length = 1 then .error .typeError
  else .ok (crossed_indices, selectRows crossed_mask_2d crossed_indices)

/-- `np.clip(v, lo, hi)` on one element. -/
def np_clip (lo hi v : ℚ) : ℚ :=
  min (max v lo) hi

/-- What a call of `Grid.split_antimeridian_faces` can return when it does
not raise: the explicit `return None, None, None` of the no-crossing
branch (grid.py:451), or the implicit `None` of falling off the end of the
function at the final `pass` (grid.py:472). -/
inductive SplitReturn where
  | tripleNone
  | implicitNone
deriving DecidableEq, Repr

/-- `Grid.split_antimeridian_faces()` (grid.py:430-472).  It runs the
detection with the default threshold `180.0`; with no crossing face it
returns `(None, None, None)`.  Otherwise it gathers the crossing rows'
longitudes and latitudes, computes the left/right shifted candidates,
clips them to `[-180, 180]`, computes the all-collapsed exclusion masks —
and then binds none of it to a return value: the function body ends in
`pass`, so it falls off the end and returns `None`.  No replacement
polygons are returned and no error is raised for a crossing face without
replacements. -/
def split_antimeridian_faces (g : Grid) : Except PyError SplitReturn := do
  let (antimeridian_faces, _mask_2d) ← compute_antimeridian_faces g 180
  if antimeridian_faces.length = 0 then
    .ok .tripleNone
  else do
    let antimeridian_indices := antimeridian_faces.map
      (fun i => g.face_nodes.getD i [])
    let face_x ← np_take_2d g.node_x antimeridian_indices
    let _face_y ← np_take_2d g.node_y antimeridian_indices
    let left_x := face_x.map (fun r => r.map
      (fun v => if 0 < v then v - 360 else v))
    let right_x := face_x.map (fun r => r.map
      (fun v => if v < 0 then v + 360 else v))
    let left_x := left_x.map (fun r => r.map (np_clip (-180) 180))
    let right_x := right_x.map (fun r => r.map (np_clip (-180) 180))
    let _left_exclude := left_x.map (fun r => r.all (fun v => decide (v = -180)))
    let _right_exclude := right_x.map (fun r => r.all (fun v => decide (v = 180)))
    .ok .implicitNone

/-- The cyclically closed longitude ring of a face: the longitude sequence
with its first vertex repeated at the end (spec §3, "closed ring (first
vertex repeated)"). -/
def closedRing (l : List ℚ) : List ℚ :=
  l ++ l.take 1

/-- The specification's crossing criterion (§4.5 Detect): some edge of the
cyclically closed longitude sequence — some pair of consecutive entries of
the closed ring — has absolute longitude difference strictly greater than
the threshold. -/
def cyclicEdgeExceeds (l : List ℚ) (t : ℚ) : Prop :=
  ∃ p ∈ (closedRing l).zip (closedRing l).tail, t < |p.2 - p.1|

/-- Decidable equality for `Except`, so that concrete runs of the embedded
operations can be checked by `decide`. -/
instance {e a : Type _} [DecidableEq e] [DecidableEq a] :
    DecidableEq (Except e a) := fun
  | .error u, .error v =>
    if h : u = v then .isTrue (by rw [h])
    else .isFalse (fun hh => by cases hh; exact h rfl)
  | .error _, .ok _ => .isFalse (fun hh => by cases hh)
  | .ok _, .error _ => .isFalse (fun hh => by cases hh)
  | .ok u, .ok v =>
    if h : u = v then .isTrue (by rw [h])
    else .isFalse (fun hh => by cases hh; exact h rfl)

/-- A concrete planar grid with one square face of side 10 (its modelled
face area is 100), empty cache. -/
def gEx : Grid :=
  { node_x := [0, 10, 10, 0], node_y := [0, 0, 10, 10], node_z := [],
    node_x_units := "degrees_east", topology_dimension := 2,
    face_nodes := [[0, 1, 2, 3]], face_areas_cache := none }

/-- `gEx` with a populated cache whose contents no recomputation of this
grid's geometry could produce. -/
def gStale : Grid :=
  { gEx with face_areas_cache := some [999] }

/-- `gEx` after its cache has been populated by
`compute_face_areas("triangular", 4)`. -/
def gExComputed : Grid :=
  { gEx with face_areas_cache := some [100] }

/-- A concrete grid with two identical faces, both crossing the
antimeridian (node longitudes 170, -170, -175, 175). -/
def gCross : Grid :=
  { node_x := [170, -170, -175, 175], node_y := [0, 0, 1, 1], node_z := [],
    node_x_units := "degrees_east", topology_dimension := 2,
    face_nodes := [[0, 1, 2, 3], [0, 1, 2, 3]], face_areas_cache := none }

/-- A concrete grid in which exactly one face crosses the antimeridian
(the second face repeats a single node, so all its edges have zero
longitude difference). -/
def gOneCross : Grid :=
  { gCross with face_nodes := [[0, 1, 2, 3], [0, 0, 0, 0]] }

/-- A concrete grid whose single face (longitudes 10, 20, 30, 40) does not
cross the antimeridian. -/
def gNoCross : Grid :=
  { node_x := [10, 20, 30, 40], node_y := [0, 0, 1, 1], node_z := [],
    node_x_units := "degrees_east", topology_dimension := 2,
    face_nodes := [[0, 1, 2, 3]], face_areas_cache := none }

/-! Helper lemmas shared by the claim theorems. -/

/-- A populated cache short-circuits `compute_face_areas`: the cached array
is returned and the state is unchanged, whatever rule and order are
passed. -/
theorem compute_face_areas_of_cache_some (g : Grid) (a : List ℚ)
    (quadrature_rule : String) (order : Nat)
    (h : g.face_areas_cache = some a) :
    compute_face_areas g quadrature_rule order = (.ok a, g) := by
  unfold compute_face_areas
  rw [h]

/-- The aggregator loop returns one area per connectivity row. -/
theorem all_face_areas_length (x y : List ℚ) :
    ∀ (rows : List (List Int)) (as : List ℚ),
      all_face_areas x y rows = .ok as → as.length = rows.length := by
  intro rows
  induction rows with
  | nil =>
    intro as h
    unfold all_face_areas at h
    cases h
    rfl
  | cons r rs ih =>
    intro as h
    unfold all_face_areas at h
    cases h1 : face_area_from_nodes x y (valid_nodes x.length r) with
    | error e => rw [h1] at h; cases h
    | ok a =>
      rw [h1] at h
      cases h2 : all_face_areas x y rs with
      | error e => rw [h2] at h; cases h
      | ok bs =>
        rw [h2] at h
        cases h
        simp [ih bs h2]

/-- Inversion of a successful `compute_face_areas` call on an empty cache:
the new state is the old one with the cache set to the result, and the
result has one area per face. -/
theorem compute_face_areas_none_ok (g : Grid) (quadrature_rule : String)
    (order : Nat) (a : List ℚ) (g' : Grid)
    (h0 : g.face_areas_cache = none)
    (hc : compute_face_areas g quadrature_rule order = (.ok a, g')) :
    g' = { g with face_areas_cache := some a } ∧
      a.length = g.face_nodes.length := by
  unfold compute_face_areas at hc
  rw [h0] at hc
  split at hc
  next b heq => cases heq
  next heq =>
    split at hc
    next e heq2 => simp at hc
    next b heq2 =>
      simp only [Prod.mk.injEq, Except.ok.injEq] at hc
      obtain ⟨rfl, hg⟩ := hc
      unfold get_all_face_area_from_coords at heq2
      split at heq2
      next hro =>
        have hb := all_face_areas_length g.node_x g.node_y _ b heq2
        rw [List.length_map] at hb
        exact ⟨hg.symm, hb⟩
      next hro => cases heq2

/-- Dotting an array against a same-length array of ones sums it, starting
from any accumulator. -/
theorem dot_replicate_one_fold :
    ∀ (a : List ℚ) (s : ℚ),
      ((a.zip (List.replicate a.length 1)).foldl
          (fun s p => s + p.1 * p.2) s) = a.foldl (· + ·) s := by
  intro a
  induction a with
  | nil => intro s; rfl
  | cons v vs ih =>
    intro s
    simp only [List.length_cons, List.replicate_succ, List.zip_cons_cons,
      List.foldl_cons, mul_one]
    exact ih (s + v)

/-- `np.dot` of an array with a same-length array of ones is `np.sum`. -/
theorem np_dot_replicate_one (a : List ℚ) :
    np_dot a (List.replicate a.length 1) = .ok (np_sum a) := by
  unfold np_dot np_sum
  rw [if_pos (List.length_replicate _ _).symm]
  rw [dot_replicate_one_fold]

/-- `getLast?` of a nonempty list is its last indexed element. -/
theorem getLast?_eq_getD_length_sub_one :
    ∀ (xs : List ℚ), xs ≠ [] →
      xs.getLast? = some (xs.getD (xs.length - 1) 0)
  | [v], _ => rfl
  | v :: w :: t, _ => by
    have ih := getLast?_eq_getD_length_sub_one (w :: t) (by simp)
    simpa [List.getLast?_cons_cons] using ih

/-- A successful numpy 1-D take at index `-1` yields the last element. -/
theorem np_take_1d_neg_one (xs : List ℚ) (v : ℚ)
    (h : np_take_1d xs (-1) = .ok v) :
    xs.getLast? = some v := by
  have hneg : (-1 : Int) < 0 := by norm_num
  simp only [np_take_1d, if_pos hneg] at h
  split at h
  next hc =>
    cases h
    have hlen : 1 ≤ xs.length := by omega
    have hne : xs ≠ [] := by
      intro hnil
      rw [hnil] at hlen
      simp at hlen
    rw [getLast?_eq_getD_length_sub_one xs hne]
    congr 1
    have ht : ((-1 : Int) + xs.length).toNat = xs.length - 1 := by omega
    rw [ht]
  next hc => cases h

/-- `zipWith` is the map of the binary function over the zipped pairs. -/
theorem zipWith_eq_map_zip_q (f : ℚ → ℚ → ℚ) :
    ∀ (as bs : List ℚ),
      List.zipWith f as bs = (as.zip bs).map fun p => f p.1 p.2 := by
  intro as
  induction as with
  | nil => intro bs; rfl
  | cons a tl ih =>
    intro bs
    cases bs with
    | nil => rfl
    | cons b bs => simp [ih]

/-- Dictionary lookup by the dataset's own first key returns the first
variable's values. -/
theorem lookup_first_key (k : String) (v : List ℚ)
    (rest : List (String × List ℚ)) :
    ((k, v) :: rest).lookup k = some v := by
  simp [List.lookup]

/-! Claim theorems.

The rational arithmetic operations are `@[irreducible]` upstream, which
only hides them from the elaborator; making them semireducible again lets
`decide` evaluate the embedded operations on concrete grids. -/

attribute [local semireducible] Rat.add Rat.sub Rat.mul Rat.inv

/-- C1 (counterexample): a grid whose cache is already populated (here
with `[999]`) does not get its areas recomputed: `compute_face_areas`
with rule `"triangular"` and order 1 returns the stale cached array and
leaves the state unchanged, although recomputing the same geometry with
an empty cache yields `[100] ≠ [999]`. -/
theorem compute_face_areas_stale_cache_cex :
    compute_face_areas gStale "triangular" 1 = (.ok [999], gStale)
    ∧ (compute_face_areas { gStale with face_areas_cache := none }
        "triangular" 1).1 = .ok [100]
    ∧ ([999] : List ℚ) ≠ [100] := by
  refine ⟨by decide, by decide, by decide⟩

/-- C1 (amended): for every grid whose per-face area cache is already
populated, `compute_face_areas` ignores the requested quadrature rule and
order: it performs no recomputation, returns the cached array as is, and
leaves the cache unchanged. -/
theorem compute_face_areas_populated_cache_noop (g : Grid) (a : List ℚ)
    (quadrature_rule : String) (order : Nat)
    (h : g.face_areas_cache = some a) :
    compute_face_areas g quadrature_rule order = (.ok a, g) :=
  compute_face_areas_of_cache_some g a quadrature_rule order h

/-- C1 (witness): the amended theorem applied to the concrete stale grid
with a rule/order pair that differs from anything the cache was computed
with. -/
theorem compute_face_areas_populated_cache_noop_witness :
    compute_face_areas gStale "gaussian" 7 = (.ok [999], gStale) :=
  compute_face_areas_populated_cache_noop gStale [999] "gaussian" 7 (by decide)

/-- C2: evaluation of `split_antimeridian_faces` at grids with flagged
crossing faces.  On `gCross` (two crossing faces, longitudes
170, -170, -175, 175) the function computes the left/right candidates and
exclusion masks and then falls off the end of its body, returning `None`:
no replacement polygons are produced and no `TopologyError` is raised.
On `gOneCross` (exactly one crossing face) it raises `TypeError` from
`tuple(...squeeze())` before any split is attempted. -/
theorem split_antimeridian_faces_returns_none_eval :
    split_antimeridian_faces gCross = .ok .implicitNone
    ∧ split_antimeridian_faces gOneCross = .error .typeError := by
  refine ⟨by decide, by decide⟩

/-- C3 (counterexample): integrating a field of length 2 over the one-face
grid `gEx` raises numpy's `ValueError` from `np.dot`, not the
`ShapeMismatchError` the claim names (no such error exists in the
code). -/
theorem integrate_wrong_length_cex :
    (integrate gEx [("psi", [1, 2])] "triangular" 4).1 = .error .valueError
    ∧ (integrate gEx [("psi", [1, 2])] "triangular" 4).1
        ≠ .error .shapeMismatchError := by
  refine ⟨by decide, by decide⟩

/-- C3 (amended): for every grid with an empty cache whose face-area
computation succeeds, integrating a single field whose length differs from
the face count fails — but with numpy's `ValueError` raised by `np.dot`,
not with a `ShapeMismatchError`, which the code does not define. -/
theorem integrate_wrong_length_valueerror (g : Grid)
    (quadrature_rule : String) (order : Nat) (k : String)
    (field : List ℚ) (a : List ℚ) (g' : Grid)
    (h0 : g.face_areas_cache = none)
    (hc : compute_face_areas g quadrature_rule order = (.ok a, g'))
    (hf : field.length ≠ g.face_nodes.length) :
    integrate g [(k, field)] quadrature_rule order
      = (.error .valueError, false, g') := by
  have hlen := (compute_face_areas_none_ok g _ _ a g' h0 hc).2
  have hne : ¬ (a.length = field.length) := by
    rw [hlen]
    exact fun he => hf he.symm
  unfold integrate
  rw [hc]
  simp [List.lookup, np_dot, hne]

/-- C3 (witness): the amended theorem applied to the concrete one-face
grid and a length-2 field. -/
theorem integrate_wrong_length_valueerror_witness :
    integrate gEx [("psi", [1, 2])] "triangular" 4
      = (.error .valueError, false, gExComputed) :=
  integrate_wrong_length_valueerror gEx "triangular" 4 "psi" [1, 2] [100]
    gExComputed (by decide) (by decide) (by decide)

/-- C4 (counterexample): calling `compute_face_areas` with unsupported
order 99 on a grid whose cache is already populated raises nothing at all:
the stale cache is returned untouched, so the call does not raise
`ConfigurationError` for every grid. -/
theorem compute_face_areas_bad_order_warm_cex :
    compute_face_areas gStale "triangular" 99 = (.ok [999], gStale)
    ∧ (compute_face_areas gStale "triangular" 99).1
        ≠ .error .configurationError := by
  refine ⟨rfl, by decide⟩

/-- C4 (amended): only on a grid whose per-face area cache is empty does
an unsupported quadrature order make `compute_face_areas` raise
`ConfigurationError`, leaving the cache (the whole state) untouched; a
populated cache short-circuits the call before any order validation. -/
theorem compute_face_areas_bad_order_cold (g : Grid) (order : Nat)
    (h0 : g.face_areas_cache = none)
    (hbad : ¬ (1 ≤ order ∧ order ≤ 4)) :
    compute_face_areas g "triangular" order
      = (.error .configurationError, g) := by
  unfold compute_face_areas
  rw [h0]
  have hk : get_all_face_area_from_coords g.node_x g.node_y
      (if 2 < g.topology_dimension then g.node_z
        else List.replicate g.node_x.length 0)
      (g.face_nodes.map (fun row => row.map toUint32))
      g.topology_dimension "triangular" order
      (if !(containsDegree g.node_x_units) then "cartesian"
        else "spherical")
      = .error .configurationError := by
    unfold get_all_face_area_from_coords
    rw [if_neg]
    intro hco
    exact hbad hco.2
  rw [hk]

/-- C4 (witness): the amended theorem applied to the concrete cold grid
with order 99. -/
theorem compute_face_areas_bad_order_cold_witness :
    compute_face_areas gEx "triangular" 99
      = (.error .configurationError, gEx) :=
  compute_face_areas_bad_order_cold gEx 99 (by decide) (by decide)

/-- C5: the detection pipeline of `compute_antimeridian_faces` flags a
face's gathered longitude row exactly when some edge of its cyclically
closed longitude sequence has absolute longitude difference strictly
greater than the threshold; in particular the face with longitudes
[170, -170, -175, 175] at threshold 180 is flagged, and the face with
longitudes [10, 20, 30, 40] is not. -/
theorem faceCrossesAntimeridian_iff_cyclic_edge :
    (∀ (l : List ℚ) (t : ℚ),
        faceCrossesAntimeridian l t = true ↔ cyclicEdgeExceeds l t)
    ∧ faceCrossesAntimeridian [170, -170, -175, 175] 180 = true
    ∧ faceCrossesAntimeridian [10, 20, 30, 40] 180 = false := by
  refine ⟨?_, by decide, by decide⟩
  intro l t
  have hpad : np_pad_wrap l = closedRing l := by
    cases l <;> rfl
  unfold faceCrossesAntimeridian edge_cross_mask np_diff cyclicEdgeExceeds
  rw [hpad, zipWith_eq_map_zip_q]
  simp [List.any_map, List.any_eq_true, Function.comp]

/-- C6: a dataset with more than one candidate field does not make
`integrate` fail on that account: the warning flag is emitted and the
result is exactly the dot product of the face areas with the first
field's values — the later fields are ignored. -/
theorem integrate_multiple_fields_warns_uses_first (g : Grid)
    (quadrature_rule : String) (order : Nat) (k : String) (v : List ℚ)
    (p : String × List ℚ) (rest : List (String × List ℚ))
    (a : List ℚ) (g' : Grid)
    (hc : compute_face_areas g quadrature_rule order = (.ok a, g')) :
    integrate g ((k, v) :: p :: rest) quadrature_rule order
      = (np_dot a v, true, g') := by
  unfold integrate
  rw [hc]
  simp [List.lookup]

/-- C6 (witness): two candidate fields over the concrete one-face grid:
the warning flag is set and the first field (value 2, face area 100) is
the one integrated. -/
theorem integrate_multiple_fields_warns_uses_first_witness :
    integrate gEx [("a", [2]), ("b", [5])] "triangular" 4
      = (np_dot [100] [2], true, gExComputed) :=
  integrate_multiple_fields_warns_uses_first gEx "triangular" 4 "a" [2]
    ("b", [5]) [] [100] gExComputed (by decide)

/-- C7: integrating a field of all ones (one per face) equals the total
face area computed with the same quadrature rule and order: both reduce to
the sum of the same per-face area array. -/
theorem integrate_ones_eq_total_area (g : Grid) (quadrature_rule : String)
    (order : Nat) (k : String) (a : List ℚ) (g' : Grid)
    (hc : compute_face_areas g quadrature_rule order = (.ok a, g'))
    (hF : a.length = g.face_nodes.length) :
    integrate g [(k, List.replicate g.face_nodes.length 1)]
        quadrature_rule order = (.ok (np_sum a), false, g')
    ∧ calculate_total_face_area g quadrature_rule order
        = (.ok (np_sum a), g') := by
  constructor
  · unfold integrate
    rw [hc, ← hF]
    simp [List.lookup, np_dot_replicate_one]
  · unfold calculate_total_face_area
    rw [hc]

/-- C7 (witness): on the concrete one-face grid, integrating the all-ones
field gives the total face area 100. -/
theorem integrate_ones_eq_total_area_witness :
    integrate gEx [("ones", List.replicate gEx.face_nodes.length 1)]
        "triangular" 4 = (.ok (np_sum [100]), false, gExComputed)
    ∧ calculate_total_face_area gEx "triangular" 4
        = (.ok (np_sum [100]), gExComputed) :=
  integrate_ones_eq_total_area gEx "triangular" 4 "ones" [100] gExComputed
    (by decide) (by decide)

/-- C8: on a grid with an empty cache, the first access of the
`face_areas` property computes the areas with the default rule
`"triangular"` and order 4, stores them in the cache, and returns them;
a second access returns the now-cached array without recomputation. -/
theorem face_areas_first_access (g : Grid) (a : List ℚ) (g' : Grid)
    (h0 : g.face_areas_cache = none)
    (hc : compute_face_areas g "triangular" 4 = (.ok a, g')) :
    face_areas g = (.ok a, g')
    ∧ g'.face_areas_cache = some a
    ∧ face_areas g' = (.ok a, g') := by
  have hg := (compute_face_areas_none_ok g _ _ a g' h0 hc).1
  have hcache : g'.face_areas_cache = some a := by rw [hg]
  refine ⟨?_, hcache, ?_⟩
  · unfold face_areas
    rw [h0, hc]
  · unfold face_areas
    rw [hcache]

/-- C8 (witness): the concrete one-face grid: first access computes
`[100]` with the defaults and caches it; the second access returns it from
the cache. -/
theorem face_areas_first_access_witness :
    face_areas gEx = (.ok [100], gExComputed)
    ∧ gExComputed.face_areas_cache = some [100]
    ∧ face_areas gExComputed = (.ok [100], gExComputed) :=
  face_areas_first_access gEx [100] gExComputed (by decide) (by decide)

/-- C9: when the detection flags no crossing face, the split returns the
explicit `(None, None, None)` triple — not an empty mapping and not an
error. -/
theorem split_no_crossing_triple_none (g : Grid) (m2 : List (List Bool))
    (h : compute_antimeridian_faces g 180 = .ok ([], m2)) :
    split_antimeridian_faces g = .ok .tripleNone := by
  unfold split_antimeridian_faces
  rw [h]
  rfl

/-- C9 (witness): the concrete non-crossing grid takes the
`(None, None, None)` branch. -/
theorem split_no_crossing_triple_none_witness :
    split_antimeridian_faces gNoCross = .ok .tripleNone :=
  split_no_crossing_triple_none gNoCross [] (by decide)

/-- C10: the gather feeding the antimeridian detection does not filter the
connectivity row: after the signed `int32` cast, every slot of the row —
sentinel entries included — gathers one longitude, so the gathered row has
exactly one entry per slot, and a sentinel `-1` slot gathers the last
node's longitude (and thus contributes edges to the crossing test). -/
theorem antimeridian_gather_keeps_fill_slots :
    ∀ (node_x : List ℚ) (row : List Int) (lon : List ℚ),
      np_take_row node_x (row.map toInt32) = .ok lon →
      lon.length = row.length ∧
      ∀ i, i < row.length → row.getD i 0 = -1 →
        node_x.getLast? = some (lon.getD i 0) := by
  intro node_x row
  induction row with
  | nil =>
    intro lon h
    cases h
    exact ⟨rfl, fun i hi _ => absurd hi (by simp)⟩
  | cons r rs ih =>
    intro lon h
    rw [List.map_cons] at h
    unfold np_take_row at h
    cases h1 : np_take_1d node_x (toInt32 r) with
    | error e => rw [h1] at h; cases h
    | ok v =>
      rw [h1] at h
      cases h2 : np_take_row node_x (rs.map toInt32) with
      | error e => rw [h2] at h; cases h
      | ok vs =>
        rw [h2] at h
        cases h
        obtain ⟨hlen, hsent⟩ := ih vs h2
        constructor
        · simp [hlen]
        · intro i hi hneg
          cases i with
          | zero =>
            have hr : r = -1 := by simpa using hneg
            rw [hr] at h1
            have ht : toInt32 (-1) = -1 := by decide
            rw [ht] at h1
            simpa using np_take_1d_neg_one node_x v h1
          | succ j =>
            have hj : j < rs.length := by simpa using hi
            have hs := hsent j hj (by simpa using hneg)
            simpa using hs

/-- C10 (witness): node longitudes [170, -170, 0] and connectivity row
[0, 1, -1]: every slot gathers (three longitudes for three slots) and the
sentinel slot gathers the last node's longitude 0. -/
theorem antimeridian_gather_keeps_fill_slots_witness :
    ([170, -170, 0] : List ℚ).length = ([0, 1, -1] : List Int).length
    ∧ ([170, -170, 0] : List ℚ).getLast?
        = some (([170, -170, 0] : List ℚ).getD 2 0) := by
  have h := antimeridian_gather_keeps_fill_slots [170, -170, 0] [0, 1, -1]
    [170, -170, 0] (by decide)
  exact ⟨h.1, h.2 2 (by decide) (by decide)⟩
